import Mathlib

/-!
# SatelliteTraker — prediction coverage cache and refresh scheduler

Shallow embedding of the client-side prediction coverage cache and refresh
scheduler of the SatelliteTraker repository, together with proofs of the
spec's testable properties.

Embedded sources:
* `app/static/website/py/satellite_tracker_client/entities.py`
  (`Satellite.__init__`, `Satellite.path_covers`, `Satellite.get_path`,
  `Satellite.on_path_received`)
* `app/static/website/py/satellite_tracker_client/map_ui.py`
  (`MapUI.__init__` chunking constants, `MapUI.real_to_map_seconds`,
  `MapUI.ensure_enough_predictions`, `MapUI.update_satellite_in_map`,
  `MapUI.get_or_create_satellite_entity`)

Modelling conventions:
* Map-time instants and durations are rationals, in seconds.  Python
  `datetime` arithmetic (`map_now + timedelta(seconds=x)`) becomes plain
  rational addition; datetime comparison becomes rational comparison.
* The Cesium clock, the Cesium date/position constructors and the helpers
  of `utils.py` (which only convert between ISO strings, Cesium dates and
  datetimes) are external collaborators; the conversion functions are
  opaque parameters (`ExternalFns`) and the clock is a record holding the
  two fields `real_to_map_seconds` actually reads.
* The JSON payload of a completed prediction request is modelled already
  parsed (`jsjson.parse` plus `parse_iso8601_date` are external): a record
  with the two window instants and the raw position list.
* Mutation of a `Satellite` object becomes explicit state passing: every
  method returns the updated satellite together with the observable
  effects it produced (HTTP requests issued, display-sink updates,
  exceptions raised).
-/

namespace SatelliteTraker

/-- A point in simulated map time, in seconds (models Python `datetime`
values compared and shifted with `timedelta(seconds=...)`). -/
abbrev MapInstant := ℚ

/-- The part of the Cesium `viewer.clock` state that
`MapUI.real_to_map_seconds` reads: `clock.clockStep` (a Cesium enum value
coerced to a number by the multiplication) and `clock.multiplier`. -/
structure CesiumClock where
  clockStep : ℚ
  multiplier : ℚ
deriving Repr, DecidableEq

/-- `MapUI.real_to_map_seconds`: `clock.clockStep * clock.multiplier *
real_seconds`. -/
def real_to_map_seconds (clock : CesiumClock) (real_seconds : ℚ) : ℚ :=
  clock.clockStep * clock.multiplier * real_seconds

/-- The effective real-to-map rate multiplier applied by
`real_to_map_seconds`: the product of the coerced clock-step mode and the
clock multiplier. -/
def rate_multiplier (clock : CesiumClock) : ℚ :=
  clock.clockStep * clock.multiplier

/-- The clock mode in which real-clock progression does not drive the map
clock: Cesium `ClockStep.TICK_DEPENDENT`, whose numeric value is `0`.
This is the paused state as seen by `real_to_map_seconds`. -/
def is_paused (clock : CesiumClock) : Prop :=
  clock.clockStep = 0

instance (clock : CesiumClock) : Decidable (is_paused clock) := by
  unfold is_paused; infer_instance

/-- `MapUI.__init__`: how often the scheduler checks, in real seconds. -/
def predictions_refresh_real_seconds : ℚ := 5

/-- `MapUI.__init__`: how many real seconds of predictions each fetched
chunk spans (half-width around the current map instant). -/
def predictions_chunk_real_seconds : ℚ := 30 * 60

/-- `MapUI.__init__`: how many real seconds before running out of
predictions a new request fires. -/
def predictions_too_low_threshold_real_seconds : ℚ := 15 * 60

/-- `Style` from `entities.py`: purely presentational configuration. -/
structure Style where
  point_size : ℚ := 10
  point_color : String := "#FFFF00"
  show_path : Bool := true
  path_width : ℚ := 2
  path_color : String := "#00FF00"
  path_seconds_ahead : ℚ := 60 * 45
  path_seconds_behind : ℚ := 60 * 10
  show_sensor : Bool := true
  sensor_line_width : ℚ := 1
  sensor_color : String := "#00FFFF"
  sensor_fill : Bool := false
  sensor_fill_alpha : ℚ := 2 / 10
deriving Repr, DecidableEq

/-- One raw position entry of a parsed `/api/predict_path/` response
(`path_data.positions` elements, fields read by `on_path_received`). -/
structure RawPosition where
  at_date : String
  latitude : ℚ
  longitude : ℚ
  altitude : ℚ
deriving Repr, DecidableEq

/-- `PathPosition` namedtuple from `entities.py`, stored in Cesium-ready
format. -/
structure PathPosition where
  at_date : String
  latitude : ℚ
  longitude : ℚ
  altitude : ℚ
  cesium_date : String
  cesium_position : ℚ × ℚ × ℚ
deriving Repr, DecidableEq

/-- The external conversion collaborators used while building
`PathPosition` values: `iso_to_cesium_date` from `utils.py` (a wrapper
over the Cesium date constructor) and `cesium.Cartesian3.fromDegrees`.
Their outputs are never inspected by the core logic, so they are opaque
parameters of the model. -/
structure ExternalFns where
  iso_to_cesium_date : String → String
  fromDegrees : ℚ → ℚ → ℚ → ℚ × ℚ × ℚ

/-- The three "dashboard working data" fields of a `Satellite`
(`path_start_date`, `path_end_date`, `path_positions`).  They are `None`
at construction and are only ever assigned together by
`on_path_received` on a successful response, so the model groups them:
`none` is the all-`None` state. -/
structure PathCache where
  start_date : MapInstant
  end_date : MapInstant
  positions : List PathPosition
deriving Repr, DecidableEq

/-- `Satellite` from `entities.py`: configuration plus the temporary
path-prediction cache. -/
structure Satellite where
  id : String
  from_db : Bool
  name : String
  description : String
  norad_id : Option String
  tle : Option String
  tle_date : Option MapInstant
  style : Style
  path : Option PathCache
deriving Repr, DecidableEq

/-- Python truthiness of the `tle` field (`if not self.tle`): `None` and
the empty string are falsy. -/
def tleTruthy : Option String → Bool
  | none => false
  | some t => decide (t ≠ "")

/-- Truthiness of `self.path_positions` (`if self.path_positions:`):
falsy when the field is still `None` and when the cached list is empty. -/
def pathPositionsTruthy : Option PathCache → Bool
  | none => false
  | some c => !c.positions.isEmpty

/-- `Satellite.path_covers`: the satellite has cached predictions and
their window contains `[start_date, end_date]`. -/
def Satellite.path_covers (s : Satellite) (start_date end_date : MapInstant) : Bool :=
  match s.path with
  | some c =>
      if c.positions.isEmpty then false
      else decide (c.start_date ≤ start_date) && decide (c.end_date ≥ end_date)
  | none => false

/-- The Python expression `id is not None` inside `Satellite.__init__`
tests the *builtin function* `id` (the parameter is named `id_`), and a
builtin function object is never `None`, so the expression is constantly
true. -/
def id_builtin_is_not_none : Bool := true

/-- The keyword arguments of `Satellite.__init__` (defaults as in the
source; `id_`, `norad_id`, `tle`, `tle_date` default to `None`, `style`
to a fresh `Style()`). -/
structure SatelliteInitArgs where
  id_ : Option String := none
  from_db : Bool := false
  name : String := "New satellite"
  description : String := "New satellite"
  norad_id : Option String := none
  tle : Option String := none
  tle_date : Option MapInstant := none
  style : Option Style := none
deriving Repr, DecidableEq

/-- `Satellite.__init__`.  `fresh_uuid` models the `str(uuid4())` drawn
when `id_` is `None`.  The `from_db` guard `assert id is not None` is
embedded via `id_builtin_is_not_none`; a failing assert would be an
`AssertionError`, modelled as `Except.error`. -/
def Satellite.init (args : SatelliteInitArgs) (fresh_uuid : String) :
    Except String Satellite :=
  if args.from_db ∧ id_builtin_is_not_none = false then
    Except.error "AssertionError"
  else
    Except.ok
      { id := args.id_.getD fresh_uuid
        from_db := args.from_db
        name := args.name
        description := args.description
        norad_id := args.norad_id
        tle := args.tle
        tle_date := args.tle_date
        style := args.style.getD {}
        path := none }

/-- A parsed successful `/api/predict_path/` payload: `jsjson.parse` of
`request.data`, with `start_date`/`end_date` already through
`parse_iso8601_date` (an external helper of `utils.py`). -/
structure PathData where
  start_date : MapInstant
  end_date : MapInstant
  positions : List RawPosition

/-- A completed HTTP exchange as seen by `on_path_received`: the status
code plus the payload carried when the request succeeded.  On a
non-success status the handler only prints `request.data`, so the payload
is irrelevant there. -/
structure Request where
  status : Nat
  payload : PathData

/-- Building one `PathPosition` from one raw response entry, exactly as
the list comprehension in `on_path_received` does. -/
def buildPathPosition (ext : ExternalFns) (p : RawPosition) : PathPosition :=
  { at_date := p.at_date
    latitude := p.latitude
    longitude := p.longitude
    altitude := p.altitude
    cesium_date := ext.iso_to_cesium_date p.at_date
    cesium_position := ext.fromDegrees p.longitude p.latitude p.altitude }

/-- The display-update instruction `MapUI.update_satellite_in_map` pushes
into the Cesium viewer for one satellite: which entity, the availability
interval (the satellite's cached path window) and the position samples
rendered. -/
structure DisplayEvent where
  satellite_id : String
  availability_start : MapInstant
  availability_end : MapInstant
  samples : List PathPosition
deriving Repr, DecidableEq

/-- `MapUI.update_satellite_in_map`: reads `satellite.path_start_date`,
`satellite.path_end_date` and `satellite.path_positions` and rewrites the
viewer entities for this satellite.  When the cache fields are still
`None` the attribute access `path_start_date.isoformat()` raises; that is
the `Except.error` branch.  The Cesium entity is created if absent
(`get_or_create_satellite_entity`), so the update succeeds even for
satellites no longer in any dashboard. -/
def update_satellite_in_map (s : Satellite) : Except String DisplayEvent :=
  match s.path with
  | some c =>
      Except.ok
        { satellite_id := "SatelliteTracker.Satellite:" ++ s.id
          availability_start := c.start_date
          availability_end := c.end_date
          samples := c.positions }
  | none => Except.error "AttributeError: NoneType has no attribute isoformat"

/-- Result of running `Satellite.on_path_received`: the (possibly
mutated) satellite, the display updates emitted through the callback, and
the exception propagating out if the callback raised. -/
structure ReceiveResult where
  sat : Satellite
  events : List DisplayEvent
  raised : Option String
deriving Repr, DecidableEq

/-- The replacement cache built from a successful payload, exactly as the
assignments to `path_start_date`, `path_end_date` and `path_positions` in
`on_path_received` build it. -/
def cacheOf (ext : ExternalFns) (p : PathData) : PathCache :=
  { start_date := p.start_date
    end_date := p.end_date
    positions := p.positions.map (buildPathPosition ext) }

/-- `Satellite.on_path_received`: on status 0 or 200 replace the three
cache fields from the payload and then invoke the callback with the
mutated satellite; on any other status leave everything untouched (the
error is only printed). -/
def Satellite.on_path_received (ext : ExternalFns) (s : Satellite) (request : Request)
    (callback : Option (Satellite → Except String DisplayEvent)) : ReceiveResult :=
  if request.status = 0 ∨ request.status = 200 then
    match callback with
    | none =>
        { sat := { s with path := some (cacheOf ext request.payload) }
          events := [], raised := none }
    | some cb =>
        match cb { s with path := some (cacheOf ext request.payload) } with
        | Except.ok ev =>
            { sat := { s with path := some (cacheOf ext request.payload) }
              events := [ev], raised := none }
        | Except.error msg =>
            { sat := { s with path := some (cacheOf ext request.payload) }
              events := [], raised := some msg }
  else
    { sat := s, events := [], raised := none }

/-- One HTTP request issued by `Satellite.get_path` via `aio.get`:
the query data plus the timeout passed along. -/
structure FetchRequest where
  satellite_id : String
  tle : String
  start_date : MapInstant
  end_date : MapInstant
  timeout : ℚ
deriving Repr, DecidableEq

/-- What awaiting `aio.get` can produce: a completed exchange (any
status) or a raised exception (network failure, timeout). -/
inductive AioResult where
  | response (r : Request)
  | exn (msg : String)

/-- The prediction-fetch capability: how the outside world answers each
issued request during one scheduler tick. -/
abbrev Fetcher := FetchRequest → AioResult

/-- A fetch response that does not update the satellite: either the await
raised, or the exchange completed with a non-success status. -/
def failsRequest (res : AioResult) : Prop :=
  match res with
  | AioResult.response r => r.status ≠ 0 ∧ r.status ≠ 200
  | AioResult.exn _ => True

/-- Scheduler-trace events: a fetch for a satellite starts (the `aio.get`
awaitable is entered) and ends (the await completes or raises). -/
inductive SchedEvent where
  | fetchStart (satellite_id : String)
  | fetchEnd (satellite_id : String)
deriving Repr, DecidableEq

/-- Result of running `Satellite.get_path`: the satellite afterwards, the
HTTP requests issued, the display updates emitted, the in-flight trace,
and the exception propagating out, if any. -/
structure GetPathResult where
  sat : Satellite
  requests : List FetchRequest
  events : List DisplayEvent
  trace : List SchedEvent
  raised : Option String

/-- The request data `Satellite.get_path` sends to `/api/predict_path/`:
`satellite_id`, `tle`, the window bounds, plus the timeout handed to
`aio.get`. -/
def Satellite.fetchRequestFor (s : Satellite) (start_date end_date : MapInstant)
    (timeout : ℚ) : FetchRequest :=
  { satellite_id := s.id
    tle := s.tle.getD ""
    start_date := start_date
    end_date := end_date
    timeout := timeout }

/-- `Satellite.get_path`: with a falsy `tle` print and return without
fetching; otherwise issue the request, await it (`fetcher` answers), and
hand the completed exchange to `on_path_received`.  An exception raised
by the await propagates out before any state change. -/
def Satellite.get_path (ext : ExternalFns) (s : Satellite)
    (start_date end_date : MapInstant) (timeout : ℚ) (fetcher : Fetcher)
    (callback : Option (Satellite → Except String DisplayEvent)) : GetPathResult :=
  if tleTruthy s.tle = false then
    { sat := s, requests := [], events := [], trace := [], raised := none }
  else
    match fetcher (s.fetchRequestFor start_date end_date timeout) with
    | AioResult.exn msg =>
        { sat := s, requests := [s.fetchRequestFor start_date end_date timeout],
          events := [],
          trace := [SchedEvent.fetchStart s.id, SchedEvent.fetchEnd s.id]
          raised := some msg }
    | AioResult.response r =>
        { sat := (s.on_path_received ext r callback).sat,
          requests := [s.fetchRequestFor start_date end_date timeout],
          events := (s.on_path_received ext r callback).events,
          trace := [SchedEvent.fetchStart s.id, SchedEvent.fetchEnd s.id]
          raised := (s.on_path_received ext r callback).raised }

/-- `ensure_enough_predictions` local `map_seconds_until_end`:
the too-low threshold converted to map seconds. -/
def map_seconds_until_end (clock : CesiumClock) : ℚ :=
  real_to_map_seconds clock predictions_too_low_threshold_real_seconds

/-- `ensure_enough_predictions` local `ensure_predictions_until`:
coverage must extend at least this far ahead of `map_now`. -/
def ensure_predictions_until (clock : CesiumClock) (map_now : MapInstant) : MapInstant :=
  map_now + map_seconds_until_end clock

/-- `ensure_enough_predictions` local `map_seconds_arround`:
the chunk half-width converted to map seconds. -/
def map_seconds_arround (clock : CesiumClock) : ℚ :=
  real_to_map_seconds clock predictions_chunk_real_seconds

/-- `ensure_enough_predictions` local `start_date`: lower end of the
window a fetch asks for. -/
def fetch_window_start (clock : CesiumClock) (map_now : MapInstant) : MapInstant :=
  map_now - map_seconds_arround clock

/-- `ensure_enough_predictions` local `end_date`: upper end of the window
a fetch asks for. -/
def fetch_window_end (clock : CesiumClock) (map_now : MapInstant) : MapInstant :=
  map_now + map_seconds_arround clock

/-- Per-satellite result of one pass of the scheduler loop body. -/
structure TickSatResult where
  sat : Satellite
  requests : List FetchRequest
  events : List DisplayEvent
  trace : List SchedEvent

/-- The body of the `for satellite in ...` loop inside
`ensure_enough_predictions`, `try`/`except` included: if the cached path
does not cover `[map_now, ensure_predictions_until]`, await
`get_path(start_date, end_date, refresh_seconds, update_satellite_in_map)`;
any exception is caught, printed, and the loop moves on. -/
def tick_satellite (ext : ExternalFns) (clock : CesiumClock) (map_now : MapInstant)
    (fetcher : Fetcher) (s : Satellite) : TickSatResult :=
  if s.path_covers map_now (ensure_predictions_until clock map_now) then
    { sat := s, requests := [], events := [], trace := [] }
  else
    let r := s.get_path ext (fetch_window_start clock map_now)
      (fetch_window_end clock map_now) predictions_refresh_real_seconds
      fetcher (some update_satellite_in_map)
    { sat := r.sat, requests := r.requests, events := r.events, trace := r.trace }

/-- Result of one whole scheduler tick over the dashboard. -/
structure TickResult where
  sats : List Satellite
  requests : List FetchRequest
  events : List DisplayEvent
  trace : List SchedEvent

/-- One tick of `ensure_enough_predictions` over the dashboard's
satellites, in registry iteration order.  Each satellite's fetch is
awaited to completion before the loop reaches the next satellite, so the
per-satellite traces concatenate. -/
def tick_dashboard (ext : ExternalFns) (clock : CesiumClock) (map_now : MapInstant)
    (fetcher : Fetcher) : List Satellite → TickResult
  | [] => { sats := [], requests := [], events := [], trace := [] }
  | s :: rest =>
      let r := tick_satellite ext clock map_now fetcher s
      let t := tick_dashboard ext clock map_now fetcher rest
      { sats := r.sat :: t.sats
        requests := r.requests ++ t.requests
        events := r.events ++ t.events
        trace := r.trace ++ t.trace }

/-- The external inputs of one tick: the Cesium clock state, the current
map instant read from `viewer.clock.currentTime`, and how the network
answers each request issued during the tick. -/
structure TickInput where
  clock : CesiumClock
  map_now : MapInstant
  fetcher : Fetcher

/-- A run of the scheduler loop across successive ticks, threading the
satellites' states; returns the final states and the concatenated fetch
trace. -/
def run (ext : ExternalFns) : List TickInput → List Satellite →
    List Satellite × List SchedEvent
  | [], sats => (sats, [])
  | t :: ts, sats =>
      let d := tick_dashboard ext t.clock t.map_now t.fetcher sats
      let rest := run ext ts d.sats
      (rest.1, d.trace ++ rest.2)

/-- The resolution of a pending fetch completion at the application
level: in the source, the completion path is `on_path_received` bound to
the satellite object captured by `get_path`, with
`update_satellite_in_map` as callback; nothing in that path consults
`app.dashboard.satellites`, so the registry contents at resolution time
(`registry`) are not read. -/
def resolve_completion (ext : ExternalFns) (_registry : List Satellite)
    (s : Satellite) (r : Request) : ReceiveResult :=
  s.on_path_received ext r (some update_satellite_in_map)

/-- The spec-level coverage window of an entity (`TrackedEntity.coverage
: Option CoverageWindow`): present exactly when cached samples exist. -/
def coverage (s : Satellite) : Option (MapInstant × MapInstant) :=
  match s.path with
  | some c => if c.positions.isEmpty then none else some (c.start_date, c.end_date)
  | none => none

/-! ## Concrete fixtures used by witnesses and counterexamples -/

/-- Concrete external conversions for witnesses: identity-shaped stand-ins
for the opaque Cesium converters. -/
def extFns0 : ExternalFns :=
  { iso_to_cesium_date := fun d => d
    fromDegrees := fun lon lat alt => (lon, lat, alt) }

/-- A concrete successful payload. -/
def payload0 : PathData :=
  { start_date := -1800
    end_date := 1800
    positions := [{ at_date := "2020-01-01T00:00:00Z", latitude := 1, longitude := 2, altitude := 500 }] }

/-- A concrete successful exchange. -/
def request200 : Request := { status := 200, payload := payload0 }

/-- A concrete failed exchange. -/
def request500 : Request := { status := 500, payload := payload0 }

/-- A satellite with a TLE and an empty prediction cache. -/
def satA : Satellite :=
  { id := "A", from_db := false, name := "sat A", description := "", norad_id := none
    tle := some "TLE-A", tle_date := none, style := {}, path := none }

/-- A second satellite with a TLE and an empty prediction cache. -/
def satB : Satellite :=
  { id := "B", from_db := false, name := "sat B", description := "", norad_id := none
    tle := some "TLE-B", tle_date := none, style := {}, path := none }

/-- A satellite with no TLE and an empty prediction cache. -/
def satNoTle : Satellite :=
  { id := "N", from_db := false, name := "sat N", description := "", norad_id := none
    tle := none, tle_date := none, style := {}, path := none }

/-- A concrete clock running at map speed = real speed. -/
def clock1 : CesiumClock := { clockStep := 1, multiplier := 1 }

/-- A concrete paused clock (clock step `TICK_DEPENDENT`, value 0). -/
def clock0 : CesiumClock := { clockStep := 0, multiplier := 3 }

/-- A fetcher failing (by exception) exactly for requests of satellite
id `A`, succeeding for everyone else. -/
def fetcherFailA : Fetcher := fun req =>
  if req.satellite_id = "A" then AioResult.exn "boom" else AioResult.response request200

/-- A fetcher answering every request with the same success. -/
def fetcherOk : Fetcher := fun _ => AioResult.response request200

/-- The external inputs of a concrete tick whose fetches all fail with a
server error. -/
def tickInput0 : TickInput :=
  { clock := clock1, map_now := 0, fetcher := fun _ => AioResult.response request500 }

/-- Traces of the single-task scheduler: a concatenation of
start-immediately-followed-by-end blocks, because every fetch is awaited
to completion before anything else runs. -/
inductive BalancedTrace : List SchedEvent → Prop
  | nil : BalancedTrace []
  | pair (i : String) (t : List SchedEvent) (ht : BalancedTrace t) :
      BalancedTrace (SchedEvent.fetchStart i :: SchedEvent.fetchEnd i :: t)

/-- Occurrence count of one event in a trace. -/
def countEvent (e : SchedEvent) : List SchedEvent → Nat
  | [] => 0
  | x :: t => (if x = e then 1 else 0) + countEvent e t

/-! ## Helper lemmas -/

/-- The display-update instruction `update_satellite_in_map` computes for
a satellite whose cache was just replaced from payload `p`. -/
def displayEventOf (ext : ExternalFns) (s : Satellite) (p : PathData) : DisplayEvent :=
  { satellite_id := "SatelliteTracker.Satellite:" ++ s.id
    availability_start := p.start_date
    availability_end := p.end_date
    samples := p.positions.map (buildPathPosition ext) }

/-- On a success status, `on_path_received` with the map-update callback
replaces the cache from the payload and emits exactly the display update
computed from the replaced state. -/
lemma on_path_received_success_core (ext : ExternalFns) (s : Satellite) (r : Request)
    (h : r.status = 0 ∨ r.status = 200) :
    s.on_path_received ext r (some update_satellite_in_map) =
      { sat := { s with path := some (cacheOf ext r.payload) }
        events := [displayEventOf ext s r.payload]
        raised := none } := by
  unfold Satellite.on_path_received
  rw [if_pos h]
  rfl

/-- On a failure status, `on_path_received` changes nothing and emits
nothing. -/
lemma on_path_received_failure_core (ext : ExternalFns) (s : Satellite) (r : Request)
    (cb : Option (Satellite → Except String DisplayEvent))
    (h : r.status ≠ 0 ∧ r.status ≠ 200) :
    s.on_path_received ext r cb = { sat := s, events := [], raised := none } := by
  unfold Satellite.on_path_received
  rw [if_neg (by push_neg; exact h)]

/-- A failing fetch answer leaves the satellite of `get_path` unchanged. -/
lemma get_path_fail_sat (ext : ExternalFns) (s : Satellite)
    (a b timeout : ℚ) (fetcher : Fetcher)
    (cb : Option (Satellite → Except String DisplayEvent))
    (hfail : ∀ req : FetchRequest, req.satellite_id = s.id → failsRequest (fetcher req)) :
    (s.get_path ext a b timeout fetcher cb).sat = s := by
  unfold Satellite.get_path
  by_cases ht : tleTruthy s.tle = false
  · rw [if_pos ht]
  · rw [if_neg ht]
    have hreq := hfail (s.fetchRequestFor a b timeout) rfl
    cases hres : fetcher (s.fetchRequestFor a b timeout) with
    | exn msg => rfl
    | response r =>
        rw [hres] at hreq
        simp [on_path_received_failure_core ext s r cb hreq]

/-- Under a success status the satellite produced by `on_path_received`
is the input with its cache replaced from the payload, for any
callback. -/
lemma on_path_received_sat_success (ext : ExternalFns) (s : Satellite) (r : Request)
    (cb : Option (Satellite → Except String DisplayEvent))
    (h : r.status = 0 ∨ r.status = 200) :
    (s.on_path_received ext r cb).sat = { s with path := some (cacheOf ext r.payload) } := by
  unfold Satellite.on_path_received
  rw [if_pos h]
  cases cb with
  | none => rfl
  | some f =>
      cases hf : f { s with path := some (cacheOf ext r.payload) } with
      | ok ev => simp [hf]
      | error msg => simp [hf]

/-! ## Claim theorems -/

/-- C1: `path_covers` (the `covers` operation) is true exactly when the
entity has a cached coverage window whose start is at or before the
queried start and whose end is at or after the queried end; an entity
with no coverage (no cached samples) gives false, and in particular any
partial overlap gives false. -/
theorem c1_path_covers_iff_coverage_contains (s : Satellite) (a b : MapInstant) :
    s.path_covers a b = true ↔
      ∃ st en, coverage s = some (st, en) ∧ st ≤ a ∧ en ≥ b := by
  unfold Satellite.path_covers coverage
  rcases s.path with _ | c
  · simp
  · by_cases hc : c.positions.isEmpty
    · simp [hc]
    · simp [hc, and_assoc]

/-- C7: an entity whose `tle` is falsy is skipped silently by the
scheduler tick: the tick issues no fetch request for it, emits no display
update, records no in-flight fetch, raises nothing, and leaves the
entity's cached coverage and samples unchanged — for every fetcher. -/
theorem c7_no_tle_skipped (ext : ExternalFns) (clock : CesiumClock)
    (map_now : MapInstant) (fetcher : Fetcher) (s : Satellite)
    (h : tleTruthy s.tle = false) :
    (tick_satellite ext clock map_now fetcher s).sat = s ∧
    (tick_satellite ext clock map_now fetcher s).requests = [] ∧
    (tick_satellite ext clock map_now fetcher s).events = [] ∧
    (tick_satellite ext clock map_now fetcher s).trace = [] := by
  unfold tick_satellite Satellite.get_path
  by_cases hcov : s.path_covers map_now (ensure_predictions_until clock map_now) = true
  · rw [if_pos hcov]
    exact ⟨rfl, rfl, rfl, rfl⟩
  · rw [if_neg hcov, if_pos h]
    exact ⟨rfl, rfl, rfl, rfl⟩

/-- C7 witness: a concrete TLE-less satellite is skipped by a concrete
tick. -/
theorem c7_witness :
    (tick_satellite extFns0 clock1 0 (fun _ => AioResult.exn "down") satNoTle).sat = satNoTle ∧
    (tick_satellite extFns0 clock1 0 (fun _ => AioResult.exn "down") satNoTle).requests = [] ∧
    (tick_satellite extFns0 clock1 0 (fun _ => AioResult.exn "down") satNoTle).events = [] ∧
    (tick_satellite extFns0 clock1 0 (fun _ => AioResult.exn "down") satNoTle).trace = [] :=
  c7_no_tle_skipped extFns0 clock1 0 (fun _ => AioResult.exn "down") satNoTle rfl

/-- C8: `real_to_map_seconds` (the `to_map_duration` conversion) equals
the real duration times the effective rate multiplier, and yields zero
map progression when the clock is paused. -/
theorem c8_real_to_map_linear (clock : CesiumClock) (real_seconds : ℚ) :
    real_to_map_seconds clock real_seconds = real_seconds * rate_multiplier clock ∧
    (is_paused clock → real_to_map_seconds clock real_seconds = 0) := by
  constructor
  · unfold real_to_map_seconds rate_multiplier
    ring
  · intro hp
    unfold is_paused at hp
    unfold real_to_map_seconds
    rw [hp]
    ring

/-- C8 witness: the conversion evaluated on a running and on a paused
concrete clock. -/
theorem c8_witness :
    real_to_map_seconds clock1 7 = 7 * rate_multiplier clock1 ∧
    real_to_map_seconds clock0 7 = 0 :=
  ⟨(c8_real_to_map_linear clock1 7).1, (c8_real_to_map_linear clock0 7).2 rfl⟩

/-- C9: the coverage-update step is idempotent on the entity state:
running `on_path_received` twice with the same successful result leaves
the satellite identical to running it once. -/
theorem c9_on_path_received_idempotent (ext : ExternalFns) (s : Satellite)
    (r : Request) (cb : Option (Satellite → Except String DisplayEvent))
    (h : r.status = 0 ∨ r.status = 200) :
    ((s.on_path_received ext r cb).sat.on_path_received ext r cb).sat =
      (s.on_path_received ext r cb).sat := by
  rw [on_path_received_sat_success ext s r cb h,
    on_path_received_sat_success ext _ r cb h]

/-- C9 witness: idempotence at a concrete satellite and a concrete
successful result. -/
theorem c9_witness :
    ((satA.on_path_received extFns0 request200 (some update_satellite_in_map)).sat.on_path_received
        extFns0 request200 (some update_satellite_in_map)).sat =
      (satA.on_path_received extFns0 request200 (some update_satellite_in_map)).sat :=
  c9_on_path_received_idempotent extFns0 satA request200 (some update_satellite_in_map)
    (Or.inr rfl)

/-- C10: `Satellite.__init__` always succeeds — the `from_db` guard
`assert id is not None` tests the Python builtin `id`, which is never
`None`, so it cannot fire — and a satellite constructed with
`from_db=True`, `id_=None` is silently given the fresh UUID as id instead
of being rejected. -/
theorem c10_init_assert_vacuous (args : SatelliteInitArgs) (fresh_uuid : String) :
    (Satellite.init args fresh_uuid).isOk = true ∧
    ∃ s, Satellite.init { args with id_ := none, from_db := true } fresh_uuid = Except.ok s ∧
      s.id = fresh_uuid ∧ s.from_db = true := by
  unfold Satellite.init
  simp [id_builtin_is_not_none, Except.isOk, Except.toBool]

/-- C4: on fetch success the entity's coverage window and sample sequence
are both replaced with the fetched window and data — the new cache is a
function of the payload alone, never merged with the previous cache — and
the display-update instruction emitted is exactly the one computed from
the post-replacement state (so it is emitted only after the
replacement). -/
theorem c4_success_replaces_then_updates_display (ext : ExternalFns) (s : Satellite)
    (r : Request) (h : r.status = 0 ∨ r.status = 200) :
    (s.on_path_received ext r (some update_satellite_in_map)).sat =
      { s with path := some (cacheOf ext r.payload) } ∧
    ∃ ev,
      update_satellite_in_map (s.on_path_received ext r (some update_satellite_in_map)).sat =
        Except.ok ev ∧
      (s.on_path_received ext r (some update_satellite_in_map)).events = [ev] := by
  rw [on_path_received_success_core ext s r h]
  exact ⟨rfl, displayEventOf ext s r.payload, rfl, rfl⟩

/-- C4 witness: replacement and display emission at a concrete satellite
and a concrete successful exchange. -/
theorem c4_witness :
    (satA.on_path_received extFns0 request200 (some update_satellite_in_map)).sat =
      { satA with path := some (cacheOf extFns0 request200.payload) } ∧
    ∃ ev,
      update_satellite_in_map
          (satA.on_path_received extFns0 request200 (some update_satellite_in_map)).sat =
        Except.ok ev ∧
      (satA.on_path_received extFns0 request200 (some update_satellite_in_map)).events = [ev] :=
  c4_success_replaces_then_updates_display extFns0 satA request200 (Or.inr rfl)

/-- C2 counterexample: this concrete TLE-less satellite is *not* covered
for `[map_now, ensure_until]`, yet the tick issues no fetch for it — so
"fetched exactly when covers is false" fails as stated. -/
theorem c2_counterexample :
    satNoTle.path_covers 0 (ensure_predictions_until clock1 0) = false ∧
    (tick_satellite extFns0 clock1 0 (fun _ => AioResult.response request200)
        satNoTle).requests = [] := by
  exact ⟨rfl, rfl⟩

/-- C2 (amended): on a tick a satellite is fetched exactly when it is
under-covered for `[map_now, ensure_until]` *and* has a truthy TLE; the
issued request asks for `[fetch_start, fetch_end]`, where the windows and
constants are exactly `ensure_until = map_now + to_map(15*60)`,
`fetch_start/end = map_now ∓ to_map(30*60)`, refresh interval 5 real
seconds (also passed as the fetch timeout). -/
theorem c2_fetch_condition_and_window (ext : ExternalFns) (clock : CesiumClock)
    (map_now : MapInstant) (fetcher : Fetcher) (s : Satellite) :
    (tick_satellite ext clock map_now fetcher s).requests =
      (if s.path_covers map_now (ensure_predictions_until clock map_now) = false ∧
          tleTruthy s.tle = true
       then [s.fetchRequestFor (fetch_window_start clock map_now)
              (fetch_window_end clock map_now) predictions_refresh_real_seconds]
       else []) ∧
    ensure_predictions_until clock map_now =
      map_now + real_to_map_seconds clock predictions_too_low_threshold_real_seconds ∧
    fetch_window_start clock map_now =
      map_now - real_to_map_seconds clock predictions_chunk_real_seconds ∧
    fetch_window_end clock map_now =
      map_now + real_to_map_seconds clock predictions_chunk_real_seconds ∧
    predictions_refresh_real_seconds = 5 ∧
    predictions_chunk_real_seconds = 30 * 60 ∧
    predictions_too_low_threshold_real_seconds = 15 * 60 := by
  refine ⟨?_, rfl, rfl, rfl, rfl, rfl, rfl⟩
  unfold tick_satellite Satellite.get_path
  by_cases hcov : s.path_covers map_now (ensure_predictions_until clock map_now) = true
  · rw [if_pos hcov]
    simp [hcov]
  · rw [if_neg hcov]
    have hcov' : s.path_covers map_now (ensure_predictions_until clock map_now) = false := by
      revert hcov
      cases s.path_covers map_now (ensure_predictions_until clock map_now) <;> simp
    by_cases ht : tleTruthy s.tle = false
    · rw [if_pos ht]
      simp [ht]
    · have ht' : tleTruthy s.tle = true := by
        revert ht
        cases tleTruthy s.tle <;> simp
      rw [if_neg ht]
      cases hres : fetcher (s.fetchRequestFor (fetch_window_start clock map_now)
          (fetch_window_end clock map_now) predictions_refresh_real_seconds) with
      | exn msg => simp [hcov', ht']
      | response r => simp [hcov', ht']

/-- C6 counterexample: resolving a fetch completion for a satellite that
is no longer in the registry (empty registry) still mutates the
satellite's cached coverage and samples and still emits a display update
for it — the handler has no staleness check; no exception is raised. -/
theorem c6_counterexample :
    (resolve_completion extFns0 [] satA request200).sat.path ≠ satA.path ∧
    (resolve_completion extFns0 [] satA request200).events ≠ [] ∧
    (resolve_completion extFns0 [] satA request200).raised = none := by
  refine ⟨?_, ?_, rfl⟩ <;> decide

/-- C6 (amended): the completion handler consults the registry not at
all — its result is identical for any registry contents, including one
from which the entity was removed; on a success status it mutates the
removed entity's cache, emits that entity's display update (re-creating
the display entity if needed), and raises no exception. -/
theorem c6_stale_completion_not_detected (ext : ExternalFns)
    (reg reg2 : List Satellite) (s : Satellite) (r : Request)
    (h : r.status = 0 ∨ r.status = 200) :
    resolve_completion ext reg s r = resolve_completion ext reg2 s r ∧
    (resolve_completion ext reg s r).sat = { s with path := some (cacheOf ext r.payload) } ∧
    (resolve_completion ext reg s r).events = [displayEventOf ext s r.payload] ∧
    (resolve_completion ext reg s r).raised = none := by
  unfold resolve_completion
  rw [on_path_received_success_core ext s r h]
  exact ⟨rfl, rfl, rfl, rfl⟩

/-- C6 (amended) witness: stale resolution at a concrete removed
satellite, against the empty registry and a nonempty one. -/
theorem c6_witness :
    resolve_completion extFns0 [] satA request200 =
      resolve_completion extFns0 [satB] satA request200 ∧
    (resolve_completion extFns0 [] satA request200).sat =
      { satA with path := some (cacheOf extFns0 request200.payload) } ∧
    (resolve_completion extFns0 [] satA request200).events =
      [displayEventOf extFns0 satA request200.payload] ∧
    (resolve_completion extFns0 [] satA request200).raised = none :=
  c6_stale_completion_not_detected extFns0 [] [satB] satA request200 (Or.inr rfl)

/-- The per-tick states are computed entity by entity: the tick maps
`tick_satellite` over the registry, so each satellite's new state is a
function of that satellite (and the fetcher's answers to its own
requests) alone. -/
lemma tick_dashboard_sats_map (ext : ExternalFns) (clock : CesiumClock)
    (map_now : MapInstant) (fetcher : Fetcher) :
    ∀ sats : List Satellite,
      (tick_dashboard ext clock map_now fetcher sats).sats =
        sats.map (fun s => (tick_satellite ext clock map_now fetcher s).sat)
  | [] => rfl
  | s :: rest => by
      unfold tick_dashboard
      simp [tick_dashboard_sats_map ext clock map_now fetcher rest]

/-- C3: a fetch failure for entity `a` (failure status or raised
exception) leaves `a`'s coverage and samples unchanged; the whole tick
outcome for any entity `b` with a different id — its new state, its
issued fetch, its display updates — is identical to the outcome under a
fetcher that does not fail for `a`; the tick still processes every
registry entry (the new states are the entity-wise map); and the run
proceeds to the next ticks on those states. -/
theorem c3_fetch_failure_isolated (ext : ExternalFns) (clock : CesiumClock)
    (map_now : MapInstant) (f g : Fetcher) (a b : Satellite)
    (sats : List Satellite) (ts : List TickInput)
    (hfail : ∀ req : FetchRequest, req.satellite_id = a.id → failsRequest (f req))
    (hagree : ∀ req : FetchRequest, req.satellite_id ≠ a.id → f req = g req)
    (hb : b.id ≠ a.id) :
    (tick_satellite ext clock map_now f a).sat = a ∧
    tick_satellite ext clock map_now f b = tick_satellite ext clock map_now g b ∧
    (tick_dashboard ext clock map_now f sats).sats =
      sats.map (fun s => (tick_satellite ext clock map_now f s).sat) ∧
    (run ext ({ clock := clock, map_now := map_now, fetcher := f } :: ts) sats).1 =
      (run ext ts (tick_dashboard ext clock map_now f sats).sats).1 := by
  refine ⟨?_, ?_, tick_dashboard_sats_map ext clock map_now f sats, rfl⟩
  · unfold tick_satellite
    by_cases hcov : a.path_covers map_now (ensure_predictions_until clock map_now) = true
    · rw [if_pos hcov]
    · rw [if_neg hcov]
      exact get_path_fail_sat ext a _ _ _ f (some update_satellite_in_map) hfail
  · have hr : f (b.fetchRequestFor (fetch_window_start clock map_now)
        (fetch_window_end clock map_now) predictions_refresh_real_seconds) =
        g (b.fetchRequestFor (fetch_window_start clock map_now)
        (fetch_window_end clock map_now) predictions_refresh_real_seconds) :=
      hagree _ hb
    unfold tick_satellite Satellite.get_path
    rw [hr]

/-- C3 witness: isolation at concrete satellites `satA` (whose fetches
fail) and `satB`, over a concrete registry and run. -/
theorem c3_witness :
    (tick_satellite extFns0 clock1 0 fetcherFailA satA).sat = satA ∧
    tick_satellite extFns0 clock1 0 fetcherFailA satB =
      tick_satellite extFns0 clock1 0 fetcherOk satB ∧
    (tick_dashboard extFns0 clock1 0 fetcherFailA [satA, satB]).sats =
      [satA, satB].map (fun s => (tick_satellite extFns0 clock1 0 fetcherFailA s).sat) ∧
    (run extFns0 ({ clock := clock1, map_now := 0, fetcher := fetcherFailA } :: []) [satA, satB]).1 =
      (run extFns0 [] (tick_dashboard extFns0 clock1 0 fetcherFailA [satA, satB]).sats).1 :=
  c3_fetch_failure_isolated extFns0 clock1 0 fetcherFailA fetcherOk satA satB [satA, satB] []
    (by
      intro req h
      simp only [satA] at h
      simp [fetcherFailA, h, failsRequest])
    (by
      intro req h
      simp only [satA] at h
      simp [fetcherFailA, fetcherOk, h])
    (by decide)

lemma balancedTrace_append {t1 t2 : List SchedEvent}
    (h1 : BalancedTrace t1) (h2 : BalancedTrace t2) : BalancedTrace (t1 ++ t2) := by
  induction h1 with
  | nil => simpa using h2
  | pair i t ht ih => simpa using BalancedTrace.pair i (t ++ t2) ih

lemma tick_satellite_trace_balanced (ext : ExternalFns) (clock : CesiumClock)
    (map_now : MapInstant) (fetcher : Fetcher) (s : Satellite) :
    BalancedTrace (tick_satellite ext clock map_now fetcher s).trace := by
  unfold tick_satellite Satellite.get_path
  by_cases hcov : s.path_covers map_now (ensure_predictions_until clock map_now) = true
  · rw [if_pos hcov]
    exact BalancedTrace.nil
  · rw [if_neg hcov]
    by_cases ht : tleTruthy s.tle = false
    · rw [if_pos ht]
      exact BalancedTrace.nil
    · rw [if_neg ht]
      cases fetcher (s.fetchRequestFor (fetch_window_start clock map_now)
          (fetch_window_end clock map_now) predictions_refresh_real_seconds) with
      | exn msg => exact BalancedTrace.pair s.id [] BalancedTrace.nil
      | response r => exact BalancedTrace.pair s.id [] BalancedTrace.nil

lemma tick_dashboard_trace_balanced (ext : ExternalFns) (clock : CesiumClock)
    (map_now : MapInstant) (fetcher : Fetcher) :
    ∀ sats : List Satellite, BalancedTrace (tick_dashboard ext clock map_now fetcher sats).trace
  | [] => BalancedTrace.nil
  | s :: rest => by
      unfold tick_dashboard
      exact balancedTrace_append (tick_satellite_trace_balanced ext clock map_now fetcher s)
        (tick_dashboard_trace_balanced ext clock map_now fetcher rest)

lemma run_trace_balanced (ext : ExternalFns) :
    ∀ (ticks : List TickInput) (sats : List Satellite),
      BalancedTrace (run ext ticks sats).2
  | [], _ => BalancedTrace.nil
  | t :: ts, sats => by
      unfold run
      exact balancedTrace_append
        (tick_dashboard_trace_balanced ext t.clock t.map_now t.fetcher sats)
        (run_trace_balanced ext ts (tick_dashboard ext t.clock t.map_now t.fetcher sats).sats)

/-- In any prefix of a balanced trace, at most one more fetch has started
than has ended, for every satellite id. -/
lemma balanced_count_bound (i : String) {t : List SchedEvent} (ht : BalancedTrace t) :
    ∀ p r : List SchedEvent, p ++ r = t →
      countEvent (SchedEvent.fetchStart i) p ≤ countEvent (SchedEvent.fetchEnd i) p + 1 := by
  induction ht with
  | nil =>
      intro p r hpr
      have hp : p = [] := (List.append_eq_nil.mp hpr).1
      subst hp
      simp [countEvent]
  | pair j t htb ih =>
      intro p r hpr
      cases p with
      | nil => simp [countEvent]
      | cons x p' =>
          rw [List.cons_append] at hpr
          injection hpr with hx hpr'
          subst hx
          cases p' with
          | nil =>
              simp only [countEvent]
              split <;> omega
          | cons y p'' =>
              rw [List.cons_append] at hpr'
              injection hpr' with hy hpr''
              subst hy
              have hbound := ih p'' r hpr''
              simp only [countEvent]
              have hne : ¬(SchedEvent.fetchStart j = SchedEvent.fetchEnd i) := by
                intro hcontra
                exact SchedEvent.noConfusion hcontra
              have hne2 : ¬(SchedEvent.fetchEnd j = SchedEvent.fetchStart i) := by
                intro hcontra
                exact SchedEvent.noConfusion hcontra
              rw [if_neg hne, if_neg hne2]
              by_cases hij : SchedEvent.fetchStart j = SchedEvent.fetchStart i
              · have hij2 : SchedEvent.fetchEnd j = SchedEvent.fetchEnd i := by
                  injection hij with h
                  rw [h]
                rw [if_pos hij, if_pos hij2]
                omega
              · have hij2 : ¬(SchedEvent.fetchEnd j = SchedEvent.fetchEnd i) := by
                  intro hcontra
                  injection hcontra with h
                  exact hij (by rw [h])
                rw [if_neg hij, if_neg hij2]
                omega

/-- C5: two fetches for the same entity are never simultaneously in
flight: at every point of a scheduler run's fetch trace (every prefix
`p`), the number of started fetches for an id exceeds the number of
completed ones by at most one — so while one fetch for an entity is
pending, no later tick starts a second one for it. -/
theorem c5_no_concurrent_fetches_per_entity (ext : ExternalFns)
    (ticks : List TickInput) (sats : List Satellite)
    (p r : List SchedEvent) (i : String)
    (h : p ++ r = (run ext ticks sats).2) :
    countEvent (SchedEvent.fetchStart i) p ≤ countEvent (SchedEvent.fetchEnd i) p + 1 :=
  balanced_count_bound i (run_trace_balanced ext ticks sats) p r h

/-- C5 witness: the bound at the concrete run of one tick over `[satA]`,
split right after the fetch for `satA` starts. -/
theorem c5_witness :
    countEvent (SchedEvent.fetchStart "A") [SchedEvent.fetchStart "A"] ≤
      countEvent (SchedEvent.fetchEnd "A") [SchedEvent.fetchStart "A"] + 1 :=
  c5_no_concurrent_fetches_per_entity extFns0 [tickInput0] [satA]
    [SchedEvent.fetchStart "A"] [SchedEvent.fetchEnd "A"] "A" (by decide)

end SatelliteTraker
